import Mathlib

/-!
Verification of the Nidhogg process-utilities core (`Nidhogg/ProcessUtils.hpp`)
against its natural-language specification.

The C++ source is shallowly embedded: machine integers become `Nat` (with
explicit truncation where the code truncates), the global registry becomes an
explicit `Registry` value threaded through the operations, kernel memory that
the code pokes through raw pointers becomes explicit total maps `Nat → _`, and
the external collaborators (the version query `RtlGetVersion` and the process
lookup `PsLookupProcessByProcessId`) become inputs: an `Option Nat` build
number and a `Nat → Except Nat Nat` lookup.
-/

namespace Nidhogg

/-! ### Constants from `ProcessUtils.hpp` and the platform headers -/

def SYSTEM_PROCESS_PID : Nat := 0x4
def PROCESS_TERMINATE : Nat := 0x1
def PROCESS_CREATE_THREAD : Nat := 0x2
def PROCESS_VM_READ : Nat := 0x10
def PROCESS_VM_OPERATION : Nat := 0x8

/-- Windows SDK constant (platform header, not repo code): `PROCESS_DUP_HANDLE`. -/
def PROCESS_DUP_HANDLE : Nat := 0x40

/-- `STATUS_SUCCESS` as an unsigned 32-bit value. -/
def STATUS_SUCCESS : Nat := 0
/-- `STATUS_UNSUCCESSFUL` (0xC0000001) as an unsigned 32-bit value; also the
value of `(ULONG)STATUS_UNSUCCESSFUL`. -/
def STATUS_UNSUCCESSFUL : Nat := 0xC0000001
/-- `(UINT64)STATUS_UNSUCCESSFUL`: the 32-bit signed `NTSTATUS` sign-extended
to 64 bits, as in `UINT64 tokenOffset = (UINT64)STATUS_UNSUCCESSFUL`. -/
def STATUS_UNSUCCESSFUL_U64 : Nat := 0xFFFFFFFFC0000001
/-- `OB_PREOP_SUCCESS` of the object-manager callback enumeration. -/
def OB_PREOP_SUCCESS : Nat := 0

/-- Modelled from the spec: the compile-time registry capacity `MAX_PIDS`
(defined in `pch.h`, which is not under `src/`). -/
def MAX_PIDS : Nat := 256

/-- Modelled from the spec: the recognized build-number constants `WIN_1507` …
`WIN_1909` (defined in `pch.h`, which is not under `src/`); these are the
public build numbers of the corresponding Windows 10 releases. Only their
distinctness matters to the claims. -/
def WIN_1507 : Nat := 10240
def WIN_1511 : Nat := 10586
def WIN_1607 : Nat := 14393
def WIN_1703 : Nat := 15063
def WIN_1709 : Nat := 16299
def WIN_1803 : Nat := 17134
def WIN_1809 : Nat := 17763
def WIN_1903 : Nat := 18362
def WIN_1909 : Nat := 18363

/-! ### The protected-process registry

`pGlobals.ProtectedProcesses` is a fixed array `Processes[MAX_PIDS]` of pids
plus a count `PidsCount`.  We embed it as a list of length `MAX_PIDS` plus the
count, and each operation returns its `bool` result paired with the new
registry state. -/

structure Registry where
  processes : List Nat
  pidsCount : Nat
deriving DecidableEq, Repr

/-- The registry at subsystem start: all slots zero (free), count zero. -/
def emptyRegistry : Registry := ⟨List.replicate MAX_PIDS 0, 0⟩

/-- `FindProcess` (ProcessUtils.hpp:164-169): linear scan of the first
`PidsCount` slots for `pid`. -/
def FindProcess (g : Registry) (pid : Nat) : Bool :=
  (g.processes.take g.pidsCount).any (fun p => p == pid)

/-- `AddProcess` (ProcessUtils.hpp:181-189): put `pid` in the first free
(zero) slot among all `MAX_PIDS` slots and increment the count; fail if no
slot is free. -/
def AddProcess (g : Registry) (pid : Nat) : Bool × Registry :=
  match g.processes.findIdx? (fun p => p == 0) with
  | some i => (true, ⟨g.processes.set i pid, g.pidsCount + 1⟩)
  | none => (false, g)

/-- `RemoveProcess` (ProcessUtils.hpp:201-209): zero the first slot holding
`pid` among the first `PidsCount` slots and decrement the count; fail if not
found there. -/
def RemoveProcess (g : Registry) (pid : Nat) : Bool × Registry :=
  match (g.processes.take g.pidsCount).findIdx? (fun p => p == pid) with
  | some i => (true, ⟨g.processes.set i 0, g.pidsCount - 1⟩)
  | none => (false, g)

/-! Sequences of registry operations, for the registry claims. -/

inductive RegOp where
  | add (pid : Nat)
  | remove (pid : Nat)
deriving DecidableEq, Repr

def applyOp (g : Registry) : RegOp → Registry
  | RegOp.add pid => (AddProcess g pid).2
  | RegOp.remove pid => (RemoveProcess g pid).2

def runOps (ops : List RegOp) (g : Registry) : Registry :=
  ops.foldl applyOp g

/-- The number of adds of `pid` in an operation sequence. -/
def addCount (ops : List RegOp) (pid : Nat) : Nat :=
  (ops.filter (fun o => o == RegOp.add pid)).length

/-- The number of removes of `pid` in an operation sequence. -/
def removeCount (ops : List RegOp) (pid : Nat) : Nat :=
  (ops.filter (fun o => o == RegOp.remove pid)).length

/-- The number of non-zero (occupied) slots of a registry. -/
def occupiedSlots (g : Registry) : Nat :=
  (g.processes.filter (fun p => p ≠ 0)).length

/-! ### The access-filter callback

`OnPreOpenProcess` (ProcessUtils.hpp:34-59).  The mutable
`Info->Parameters->CreateHandleInformation.DesiredAccess` is embedded as an
input mask and a returned mask; `Info->KernelHandle` as a `Bool`; the callback
status is returned alongside.  The five `&= ~RIGHT` statements are embedded as
successive `Nat.land` with the 32-bit complements of the rights. -/

/-- One `DesiredAccess &= ~right` statement: `land` with the 32-bit complement. -/
def clearRight (access r : Nat) : Nat :=
  access &&& (0xFFFFFFFF ^^^ r)

/-- `OnPreOpenProcess`: returns `(callback status, new DesiredAccess)`. -/
def OnPreOpenProcess (kernelHandle : Bool) (g : Registry) (pid : Nat)
    (desiredAccess : Nat) : Nat × Nat :=
  if kernelHandle then (OB_PREOP_SUCCESS, desiredAccess)
  else if g.pidsCount = 0 then (OB_PREOP_SUCCESS, desiredAccess)
  else if FindProcess g pid then
    (OB_PREOP_SUCCESS,
      clearRight (clearRight (clearRight (clearRight (clearRight
        desiredAccess PROCESS_VM_OPERATION) PROCESS_VM_READ)
        PROCESS_CREATE_THREAD) PROCESS_DUP_HANDLE) PROCESS_TERMINATE)
  else (OB_PREOP_SUCCESS, desiredAccess)

/-! ### Offset resolution

Each `Get*Offset` function calls `RtlGetVersion` and switches on
`osVersion.dwBuildNumber`.  We embed the version query as an input
`build : Option Nat`: `none` is a failed query (`!NT_SUCCESS(result)`),
`some b` a successful one returning build number `b`. -/

/-- `GetActiveProcessLinksOffset` (ProcessUtils.hpp:221-248). -/
def GetActiveProcessLinksOffset (build : Option Nat) : Nat :=
  match build with
  | none => STATUS_UNSUCCESSFUL
  | some b =>
    if b = WIN_1507 ∨ b = WIN_1511 ∨ b = WIN_1607 ∨ b = WIN_1903 ∨ b = WIN_1909 then
      0x2f0
    else if b = WIN_1703 ∨ b = WIN_1709 ∨ b = WIN_1803 ∨ b = WIN_1809 then
      0x2e8
    else
      0x448

/-- `GetProcessLock` (ProcessUtils.hpp:261-288). -/
def GetProcessLock (build : Option Nat) : Nat :=
  match build with
  | none => STATUS_UNSUCCESSFUL
  | some b =>
    if b = WIN_1507 ∨ b = WIN_1511 ∨ b = WIN_1607 ∨ b = WIN_1703 ∨ b = WIN_1709 ∨
        b = WIN_1803 ∨ b = WIN_1809 then
      0x2d8
    else if b = WIN_1903 ∨ b = WIN_1909 then
      0x2e0
    else
      0x438

/-- `GetTokenOffset` (ProcessUtils.hpp:338-365); its sentinel is
`(UINT64)STATUS_UNSUCCESSFUL`, the sign-extended 64-bit value. -/
def GetTokenOffset (build : Option Nat) : Nat :=
  match build with
  | none => STATUS_UNSUCCESSFUL_U64
  | some b =>
    if b = WIN_1903 ∨ b = WIN_1909 then
      0x360
    else if b = WIN_1507 ∨ b = WIN_1511 ∨ b = WIN_1607 ∨ b = WIN_1703 ∨ b = WIN_1709 ∨
        b = WIN_1803 ∨ b = WIN_1809 then
      0x358
    else
      0x4b8

/-- `GetSignatureLevelOffset` (ProcessUtils.hpp:377-410). -/
def GetSignatureLevelOffset (build : Option Nat) : Nat :=
  match build with
  | none => STATUS_UNSUCCESSFUL
  | some b =>
    if b = WIN_1903 ∨ b = WIN_1909 then
      0x6f8
    else if b = WIN_1703 ∨ b = WIN_1709 ∨ b = WIN_1803 ∨ b = WIN_1809 then
      0x6c8
    else if b = WIN_1607 then 0x6c0
    else if b = WIN_1511 then 0x6b0
    else if b = WIN_1507 then 0x6a8
    else 0x878

/-! ### The active-process list

`HideProcess` and `RemoveProcessLinks` operate on the kernel's circular
doubly-linked list of `EPROCESS` blocks through raw pointers: the `LIST_ENTRY`
at `listOffset` holds `Flink`/`Blink` pointers to the *next/previous node's*
`LIST_ENTRY`, and the code converts between a node and its `EPROCESS` by
adding/subtracting `listOffset`.  We embed a node by its `EPROCESS` identity
(a `Nat`), so the pointer fields become two total maps `flink blink : Nat → Nat`
on node identities, and the `UniqueProcessId` read at `pidOffset` becomes a map
`pidOf : Nat → Nat`. -/

structure LState where
  flink : Nat → Nat
  blink : Nat → Nat
  pidOf : Nat → Nat

/-- Pointwise update of a map, i.e. one pointer-sized store. -/
def fupd (f : Nat → Nat) (a b : Nat) : Nat → Nat :=
  fun x => if x = a then b else f x

/-- `RemoveProcessLinks` (ProcessUtils.hpp:301-326): `previous->Flink = next;
next->Blink = previous;` then both of `current`'s pointers are rewritten to
`&current->Flink`, i.e. to `current` itself (the `Flink` field is at offset 0
of the `LIST_ENTRY`).  Stores happen in source order, later stores winning. -/
def RemoveProcessLinks (s : LState) (current : Nat) : LState :=
  let previous := s.blink current
  let next := s.flink current
  { flink := fupd (fupd s.flink previous next) current current
    blink := fupd (fupd s.blink next previous) current current
    pidOf := s.pidOf }

/-- The offset `listOffset = pidOffset + sizeof(INT_PTR)` computed by
`HideProcess` (ProcessUtils.hpp:78); `sizeof(INT_PTR)` is 8 on the x64 builds
this driver targets.  This is also the address offset at which `HideProcess`
takes the list push lock (ProcessUtils.hpp:86). -/
def hideListOffset (build : Option Nat) : Nat :=
  GetActiveProcessLinksOffset build + 8

/-- The scan loop of `HideProcess` (ProcessUtils.hpp:101-112): starting from
node `cur`, walk `Flink` pointers until the pid matches (return that node) or
the walk returns to `start` (return `none`).  The C loop terminates only by
reaching `start`; termination is expressed with explicit fuel, which theorems
instantiate with at least the list length. -/
def hideLoop (s : LState) (start pid : Nat) : Nat → Nat → Option Nat
  | 0, _ => none
  | fuel + 1, cur =>
    if cur = start then none
    else if s.pidOf cur = pid then some cur
    else hideLoop s start pid fuel (s.flink cur)

/-- `HideProcess` (ProcessUtils.hpp:71-116): fail if offset resolution failed;
otherwise check the current process's own pid, then scan the rest of the
circle; unlink on match.  Returns the `NTSTATUS` and the new list state. -/
def HideProcess (build : Option Nat) (s : LState) (current pid fuel : Nat) :
    Nat × LState :=
  if GetActiveProcessLinksOffset build = STATUS_UNSUCCESSFUL then
    (STATUS_UNSUCCESSFUL, s)
  else if s.pidOf current = pid then
    (STATUS_SUCCESS, RemoveProcessLinks s current)
  else
    match hideLoop s current pid fuel (s.flink current) with
    | some node => (STATUS_SUCCESS, RemoveProcessLinks s node)
    | none => (STATUS_UNSUCCESSFUL, s)

/-- `Walk s stop cur l`: following `flink` from `cur` reaches `stop`, visiting
exactly the nodes of `l` (each distinct from `stop`) on the way.  A circular
list rooted at `start` is `Walk s start (s.flink start) l` for the list `l` of
its other nodes. -/
inductive Walk (s : LState) (stop : Nat) : Nat → List Nat → Prop
  | nil : Walk s stop stop []
  | cons {cur : Nat} {l : List Nat} :
      cur ≠ stop → Walk s stop (s.flink cur) l → Walk s stop cur (cur :: l)

/-! ### Token transplant and signature rewrite

`ElevateProcess` and `SetProcessSignature` use the external collaborators
`PsLookupProcessByProcessId` and (indirectly) `RtlGetVersion`.  We bundle them
as a `KernelEnv`: `lookup pid` is `Except.error st` when the lookup fails with
`NTSTATUS` `st` (so `!NT_SUCCESS(st)`), and `Except.ok addr` when it yields a
referenced `EPROCESS` at address `addr`. -/

structure KernelEnv where
  osBuild : Option Nat
  lookup : Nat → Except Nat Nat

/-- Result of `ElevateProcess`: the returned `NTSTATUS`, the list of
`ObDereferenceObject` calls performed (in order, by `EPROCESS` address), and
the kernel memory after the token copy (a flat map from address to
pointer-sized word). -/
structure ElevateResult where
  status : Nat
  released : List Nat
  mem : Nat → Nat

/-- `ElevateProcess` (ProcessUtils.hpp:128-152): look up the target, resolve
the token offset (unconditionally, before any status test), look up the SYSTEM
process (pid 4), copy the pointer-sized word at `tokenOffset` from the
privileged block to the target block, dereference both references. -/
def ElevateProcess (env : KernelEnv) (mem : Nat → Nat) (pid : Nat) :
    ElevateResult :=
  match env.lookup pid with
  | Except.error st => ⟨st, [], mem⟩
  | Except.ok targetProcess =>
    let tokenOffset := GetTokenOffset env.osBuild
    match env.lookup SYSTEM_PROCESS_PID with
    | Except.error st => ⟨st, [targetProcess], mem⟩
    | Except.ok privilegedProcess =>
      ⟨STATUS_SUCCESS, [privilegedProcess, targetProcess],
        fupd mem (targetProcess + tokenOffset)
          (mem (privilegedProcess + tokenOffset))⟩

/-- The input argument of `SetProcessSignature`: the `ProcessSignature`
request struct (pid, signer type, signature signer). -/
structure ProcessSignature where
  Pid : Nat
  SignerType : Nat
  SignatureSigner : Nat
deriving DecidableEq, Repr

/-- Modelled from the spec: the protection record co-located at the
signature-level offset (`PROCESS_SIGNATURE` in `pch.h`, which is not under
`src/`): the packed signature-level byte and the unpacked protection
type/signer pair, three fields over the same memory. -/
structure PROCESS_SIGNATURE where
  SignatureLevel : Nat
  ProtectionType : Nat
  ProtectionSigner : Nat
deriving DecidableEq, Repr

/-- `SetProcessSignature` (ProcessUtils.hpp:423-441): look up the process;
on failure return the lookup status; otherwise compute the packed `UCHAR`
`(SignerType << 4) | SignatureSigner` (truncated to a byte) and store all
three fields of the record at address `process + GetSignatureLevelOffset()`.
Kernel memory is a flat map from record address to record. -/
def SetProcessSignature (env : KernelEnv) (mem : Nat → PROCESS_SIGNATURE)
    (ps : ProcessSignature) : Nat × (Nat → PROCESS_SIGNATURE) :=
  match env.lookup ps.Pid with
  | Except.error st => (st, mem)
  | Except.ok process =>
    let newSignatureLevel := ((ps.SignerType <<< 4) ||| ps.SignatureSigner) % 256
    let addr := process + GetSignatureLevelOffset env.osBuild
    (STATUS_SUCCESS,
      fun x =>
        if x = addr then
          ⟨newSignatureLevel, ps.SignerType, ps.SignatureSigner⟩
        else mem x)

/-! ### Concrete fixtures used to instantiate the theorems -/

/-- Forward pointers of a concrete three-node circular list 1 → 2 → 3 → 1. -/
def ringFlink : Nat → Nat :=
  fun n => if n = 1 then 2 else if n = 2 then 3 else if n = 3 then 1 else 0

/-- Backward pointers of the same three-node circular list. -/
def ringBlink : Nat → Nat :=
  fun n => if n = 1 then 3 else if n = 2 then 1 else if n = 3 then 2 else 0

/-- A concrete three-node list state: node `n` holds pid `100 + n`. -/
def ringState : LState :=
  ⟨ringFlink, ringBlink, fun n => 100 + n⟩

/-- A lookup facility where every pid resolves, to the address `1000 * pid`. -/
def lookupOk : Nat → Except Nat Nat :=
  fun p => Except.ok (1000 * p)

/-- A lookup facility where only the SYSTEM pid (4) resolves; every other pid
fails with `STATUS_INVALID_CID` (0xC000000B). -/
def lookupSystemOnly : Nat → Except Nat Nat :=
  fun p => if p = 4 then Except.ok 4000 else Except.error 0xC000000B

/-- An environment whose version query fails. -/
def envNoVersion : KernelEnv := ⟨none, lookupOk⟩

/-- An environment reporting build `WIN_1903` with all lookups succeeding. -/
def env1903 : KernelEnv := ⟨some WIN_1903, lookupOk⟩

/-- An environment reporting build `WIN_1903` where only pid 4 resolves. -/
def env1903SystemOnly : KernelEnv := ⟨some WIN_1903, lookupSystemOnly⟩

/-- An all-zero signature-record memory. -/
def zeroSigMem : Nat → PROCESS_SIGNATURE := fun _ => ⟨0, 0, 0⟩

/-! ## Theorems -/

set_option maxRecDepth 4000 in
/-- C1: the claim "FindProcess(pid) returns true iff the net number of adds
exceeds removes for that pid" fails on the code.  After `AddProcess 1;
AddProcess 2; RemoveProcess 1` (all pids non-zero, 2 ≤ MAX_PIDS slots ever
occupied), pid 2 has one add and no removes and still occupies slot 1, yet
`FindProcess` returns `false`: the scan runs only over the first
`PidsCount = 1` slots and slot 0 is the hole `RemoveProcess` left behind.
The count half of the claim does hold here: `PidsCount` equals the number of
non-zero slots. -/
theorem findProcess_missed_after_remove :
    FindProcess (runOps [RegOp.add 1, RegOp.add 2, RegOp.remove 1] emptyRegistry) 2 = false ∧
    (runOps [RegOp.add 1, RegOp.add 2, RegOp.remove 1] emptyRegistry).processes[1]? = some 2 ∧
    addCount [RegOp.add 1, RegOp.add 2, RegOp.remove 1] 2 = 1 ∧
    removeCount [RegOp.add 1, RegOp.add 2, RegOp.remove 1] 2 = 0 ∧
    occupiedSlots (runOps [RegOp.add 1, RegOp.add 2, RegOp.remove 1] emptyRegistry) =
      (runOps [RegOp.add 1, RegOp.add 2, RegOp.remove 1] emptyRegistry).pidsCount := by
  decide

lemma cleared_eq_land (a : Nat) :
    clearRight (clearRight (clearRight (clearRight (clearRight
        a PROCESS_VM_OPERATION) PROCESS_VM_READ)
        PROCESS_CREATE_THREAD) PROCESS_DUP_HANDLE) PROCESS_TERMINATE =
      a &&& 0xFFFFFFA4 := by
  simp only [clearRight, PROCESS_VM_OPERATION, PROCESS_VM_READ,
    PROCESS_CREATE_THREAD, PROCESS_DUP_HANDLE, PROCESS_TERMINATE,
    Nat.land_assoc]
  congr 1

lemma cleared_testBit (a : Nat) (ha : a < 2 ^ 32) (i : Nat) :
    (clearRight (clearRight (clearRight (clearRight (clearRight
        a PROCESS_VM_OPERATION) PROCESS_VM_READ)
        PROCESS_CREATE_THREAD) PROCESS_DUP_HANDLE) PROCESS_TERMINATE).testBit i =
      if i = 0 ∨ i = 1 ∨ i = 3 ∨ i = 4 ∨ i = 6 then false else a.testBit i := by
  rw [cleared_eq_land, Nat.testBit_land]
  by_cases hi : i < 32
  · interval_cases i <;>
      · cases h : a.testBit _ <;> simp [h] <;> decide
  · have hpow : (2 : Nat) ^ 32 ≤ 2 ^ i := Nat.pow_le_pow_right (by norm_num) (by omega)
    have hb : a.testBit i = false :=
      Nat.testBit_eq_false_of_lt (lt_of_lt_of_le ha hpow)
    have hc : Nat.testBit 0xFFFFFFA4 i = false :=
      Nat.testBit_eq_false_of_lt
        (lt_of_lt_of_le (by norm_num : (0xFFFFFFA4 : Nat) < 2 ^ 32) hpow)
    rw [hb, hc]
    have hni : ¬(i = 0 ∨ i = 1 ∨ i = 3 ∨ i = 4 ∨ i = 6) := by omega
    rw [if_neg hni]
    rfl

/-- C2: `OnPreOpenProcess` always returns `OB_PREOP_SUCCESS`; if the request
is kernel-mode, or the registry count is zero, or the membership test
(`FindProcess`) misses, the desired-access mask is unchanged; otherwise
exactly the five bits 0x1 (terminate), 0x2 (create thread), 0x8 (vm
operation), 0x10 (vm read) and 0x40 (dup handle) are cleared and every other
bit is unchanged; no bit is ever set. -/
theorem onPreOpenProcess_spec (k : Bool) (g : Registry) (pid a : Nat)
    (ha : a < 2 ^ 32) :
    (OnPreOpenProcess k g pid a).1 = OB_PREOP_SUCCESS ∧
    ((k = true ∨ g.pidsCount = 0 ∨ FindProcess g pid = false) →
      (OnPreOpenProcess k g pid a).2 = a) ∧
    (k = false → g.pidsCount ≠ 0 → FindProcess g pid = true →
      ∀ i, ((OnPreOpenProcess k g pid a).2).testBit i =
        if i = 0 ∨ i = 1 ∨ i = 3 ∨ i = 4 ∨ i = 6 then false else a.testBit i) ∧
    (∀ i, ((OnPreOpenProcess k g pid a).2).testBit i = true → a.testBit i = true) := by
  unfold OnPreOpenProcess
  by_cases hk : k
  · simp [hk]
  · simp only [hk, Bool.false_eq_true, if_false]
    by_cases hz : g.pidsCount = 0
    · simp [hz]
    · by_cases hf : FindProcess g pid
      · simp only [hz, hf, if_true, if_false, if_pos]
        refine ⟨trivial, ?_, ?_, ?_⟩
        · rintro (h | h | h) <;> simp_all
        · intro _ _ _ i
          exact cleared_testBit a ha i
        · intro i hi
          rw [cleared_testBit a ha i] at hi
          by_cases hc : i = 0 ∨ i = 1 ∨ i = 3 ∨ i = 4 ∨ i = 6
          · rw [if_pos hc] at hi; exact absurd hi (by simp)
          · rwa [if_neg hc] at hi
      · simp [hz, hf]

set_option maxRecDepth 8000 in
/-- C2 witness: with pid 4242 registered and a user-mode request with mask
0x1FFFFF, the guarded bit 3 (vm operation) comes back cleared and the
unguarded bit 5 survives. -/
theorem onPreOpenProcess_spec_witness :
    ((OnPreOpenProcess false (runOps [RegOp.add 4242] emptyRegistry) 4242 0x1FFFFF).2).testBit 3 = false ∧
    ((OnPreOpenProcess false (runOps [RegOp.add 4242] emptyRegistry) 4242 0x1FFFFF).2).testBit 5 = true := by
  have h := (onPreOpenProcess_spec false (runOps [RegOp.add 4242] emptyRegistry)
      4242 0x1FFFFF (by norm_num)).2.2.1 rfl (by decide) (by decide)
  constructor
  · have h3 := h 3; simpa using h3
  · have h5 := h 5; simpa using h5

/-- C5: offset resolution is a total function of the version-query outcome:
every recognized build yields its literal table offset, every unrecognized
build yields the fallback offsets, a failed query yields the unsuccessful
sentinel (`(ULONG)STATUS_UNSUCCESSFUL`, and its 64-bit sign extension for the
`UINT64`-typed token offset) for all four, and no successful query can ever
produce the sentinel. -/
theorem offset_resolution_total :
    (GetActiveProcessLinksOffset none = STATUS_UNSUCCESSFUL ∧
      GetProcessLock none = STATUS_UNSUCCESSFUL ∧
      GetTokenOffset none = STATUS_UNSUCCESSFUL_U64 ∧
      GetSignatureLevelOffset none = STATUS_UNSUCCESSFUL) ∧
    (GetActiveProcessLinksOffset (some WIN_1507) = 0x2f0 ∧
      GetActiveProcessLinksOffset (some WIN_1511) = 0x2f0 ∧
      GetActiveProcessLinksOffset (some WIN_1607) = 0x2f0 ∧
      GetActiveProcessLinksOffset (some WIN_1703) = 0x2e8 ∧
      GetActiveProcessLinksOffset (some WIN_1709) = 0x2e8 ∧
      GetActiveProcessLinksOffset (some WIN_1803) = 0x2e8 ∧
      GetActiveProcessLinksOffset (some WIN_1809) = 0x2e8 ∧
      GetActiveProcessLinksOffset (some WIN_1903) = 0x2f0 ∧
      GetActiveProcessLinksOffset (some WIN_1909) = 0x2f0) ∧
    (GetProcessLock (some WIN_1507) = 0x2d8 ∧
      GetProcessLock (some WIN_1511) = 0x2d8 ∧
      GetProcessLock (some WIN_1607) = 0x2d8 ∧
      GetProcessLock (some WIN_1703) = 0x2d8 ∧
      GetProcessLock (some WIN_1709) = 0x2d8 ∧
      GetProcessLock (some WIN_1803) = 0x2d8 ∧
      GetProcessLock (some WIN_1809) = 0x2d8 ∧
      GetProcessLock (some WIN_1903) = 0x2e0 ∧
      GetProcessLock (some WIN_1909) = 0x2e0) ∧
    (GetTokenOffset (some WIN_1507) = 0x358 ∧
      GetTokenOffset (some WIN_1511) = 0x358 ∧
      GetTokenOffset (some WIN_1607) = 0x358 ∧
      GetTokenOffset (some WIN_1703) = 0x358 ∧
      GetTokenOffset (some WIN_1709) = 0x358 ∧
      GetTokenOffset (some WIN_1803) = 0x358 ∧
      GetTokenOffset (some WIN_1809) = 0x358 ∧
      GetTokenOffset (some WIN_1903) = 0x360 ∧
      GetTokenOffset (some WIN_1909) = 0x360) ∧
    (GetSignatureLevelOffset (some WIN_1507) = 0x6a8 ∧
      GetSignatureLevelOffset (some WIN_1511) = 0x6b0 ∧
      GetSignatureLevelOffset (some WIN_1607) = 0x6c0 ∧
      GetSignatureLevelOffset (some WIN_1703) = 0x6c8 ∧
      GetSignatureLevelOffset (some WIN_1709) = 0x6c8 ∧
      GetSignatureLevelOffset (some WIN_1803) = 0x6c8 ∧
      GetSignatureLevelOffset (some WIN_1809) = 0x6c8 ∧
      GetSignatureLevelOffset (some WIN_1903) = 0x6f8 ∧
      GetSignatureLevelOffset (some WIN_1909) = 0x6f8) ∧
    (∀ b : Nat,
      b ≠ WIN_1507 → b ≠ WIN_1511 → b ≠ WIN_1607 → b ≠ WIN_1703 → b ≠ WIN_1709 →
      b ≠ WIN_1803 → b ≠ WIN_1809 → b ≠ WIN_1903 → b ≠ WIN_1909 →
      GetActiveProcessLinksOffset (some b) = 0x448 ∧
      GetProcessLock (some b) = 0x438 ∧
      GetTokenOffset (some b) = 0x4b8 ∧
      GetSignatureLevelOffset (some b) = 0x878) ∧
    (∀ b : Nat,
      GetActiveProcessLinksOffset (some b) ≠ STATUS_UNSUCCESSFUL ∧
      GetProcessLock (some b) ≠ STATUS_UNSUCCESSFUL ∧
      GetTokenOffset (some b) ≠ STATUS_UNSUCCESSFUL_U64 ∧
      GetSignatureLevelOffset (some b) ≠ STATUS_UNSUCCESSFUL) := by
  refine ⟨by decide, by decide, by decide, by decide, by decide, ?_, ?_⟩
  · intro b h1 h2 h3 h4 h5 h6 h7 h8 h9
    simp [GetActiveProcessLinksOffset, GetProcessLock, GetTokenOffset,
      GetSignatureLevelOffset, h1, h2, h3, h4, h5, h6, h7, h8, h9]
  · intro b
    refine ⟨?_, ?_, ?_, ?_⟩ <;>
      · simp only [GetActiveProcessLinksOffset, GetProcessLock, GetTokenOffset,
          GetSignatureLevelOffset]
        split_ifs <;> decide

/-- C5 witness: build 22631 is outside the recognized set and resolves to the
four fallback offsets. -/
theorem offset_resolution_total_witness :
    GetActiveProcessLinksOffset (some 22631) = 0x448 ∧
    GetProcessLock (some 22631) = 0x438 ∧
    GetTokenOffset (some 22631) = 0x4b8 ∧
    GetSignatureLevelOffset (some 22631) = 0x878 :=
  offset_resolution_total.2.2.2.2.2.1 22631 (by decide) (by decide) (by decide)
    (by decide) (by decide) (by decide) (by decide) (by decide) (by decide)

/-- C6 counterexample: at build `WIN_1507` the offset returned by
`GetProcessLock` (0x2d8) does not equal the active-process-links offset plus
one pointer width (0x2f0 + 8); the claimed relation fails on the tables. -/
theorem getProcessLock_vs_links_cex :
    ¬ (GetProcessLock (some WIN_1507) =
        GetActiveProcessLinksOffset (some WIN_1507) + 8) := by decide

/-- C6 amended: for every version-query outcome, the offset at which
`HideProcess` takes the list-guard lock is the one it computes locally —
`GetActiveProcessLinksOffset` plus one pointer width (`listOffset`,
ProcessUtils.hpp:78 and 86) — while the offset returned by `GetProcessLock`
never equals that value (and `GetProcessLock` is not consulted by
`HideProcess` at all). -/
theorem hideProcess_lock_offset (build : Option Nat) :
    hideListOffset build = GetActiveProcessLinksOffset build + 8 ∧
    GetProcessLock build ≠ GetActiveProcessLinksOffset build + 8 := by
  refine ⟨rfl, ?_⟩
  cases build with
  | none => decide
  | some b =>
    simp only [GetProcessLock, GetActiveProcessLinksOffset]
    split_ifs <;> decide

/-- C6 amended witness: at build `WIN_1607` the lock is taken at
0x2f0 + 8 while `GetProcessLock` returns 0x2d8. -/
theorem hideProcess_lock_offset_witness :
    hideListOffset (some 14393) = GetActiveProcessLinksOffset (some 14393) + 8 ∧
    GetProcessLock (some 14393) ≠ GetActiveProcessLinksOffset (some 14393) + 8 :=
  hideProcess_lock_offset (some 14393)

/-- C3: after `RemoveProcessLinks` unlinks `current` from a well-formed spot
in the doubly-linked list (its neighbours `previous`/`next` are distinct from
it, it is the unique node pointed at by `previous.Flink` and `next.Blink`),
the predecessor's forward pointer is the successor, the successor's backward
pointer is the predecessor, both of the removed node's pointers reference the
removed node itself, and no other node of the list references the removed
node. -/
theorem removeProcessLinks_spec (s : LState) (nodes : List Nat)
    (current previous next : Nat)
    (hprev : s.blink current = previous) (hnext : s.flink current = next)
    (hpc : previous ≠ current) (hnc : next ≠ current)
    (hup : ∀ n ∈ nodes, n ≠ current → n ≠ previous → s.flink n ≠ current)
    (hub : ∀ n ∈ nodes, n ≠ current → n ≠ next → s.blink n ≠ current) :
    (RemoveProcessLinks s current).flink previous = next ∧
    (RemoveProcessLinks s current).blink next = previous ∧
    (RemoveProcessLinks s current).flink current = current ∧
    (RemoveProcessLinks s current).blink current = current ∧
    (∀ n ∈ nodes, n ≠ current →
      (RemoveProcessLinks s current).flink n ≠ current ∧
      (RemoveProcessLinks s current).blink n ≠ current) := by
  unfold RemoveProcessLinks fupd
  simp only [hprev, hnext]
  refine ⟨by simp [hpc], by simp [hnc], by simp, by simp, ?_⟩
  intro n hn hncur
  constructor
  · simp only [if_neg hncur]
    by_cases hnp : n = previous
    · simpa [hnp] using hnc
    · simpa [hnp] using hup n hn hncur hnp
  · simp only [if_neg hncur]
    by_cases hnn : n = next
    · simpa [hnn] using hpc
    · simpa [hnn] using hub n hn hncur hnn

/-- C3 witness: unlinking node 2 of the concrete three-node ring 1 → 2 → 3
leaves 1 and 3 linked to each other, node 2 self-looped, and no remaining
node pointing at node 2. -/
theorem removeProcessLinks_spec_witness :
    (RemoveProcessLinks ringState 2).flink 1 = 3 ∧
    (RemoveProcessLinks ringState 2).blink 3 = 1 ∧
    (RemoveProcessLinks ringState 2).flink 2 = 2 ∧
    (RemoveProcessLinks ringState 2).blink 2 = 2 ∧
    (∀ n ∈ [1, 2, 3], n ≠ 2 →
      (RemoveProcessLinks ringState 2).flink n ≠ 2 ∧
      (RemoveProcessLinks ringState 2).blink n ≠ 2) :=
  removeProcessLinks_spec ringState [1, 2, 3] 2 1 3 (by decide) (by decide)
    (by decide) (by decide) (by decide) (by decide)

lemma hideLoop_eq_find (s : LState) (start pid : Nat) {cur : Nat} {l : List Nat}
    (hw : Walk s start cur l) :
    ∀ fuel, l.length ≤ fuel →
      hideLoop s start pid fuel cur = l.find? (fun n => s.pidOf n == pid) := by
  induction hw with
  | nil =>
    intro fuel _
    cases fuel with
    | zero => rfl
    | succ f => simp [hideLoop]
  | cons hne hw ih =>
    rename_i c l'
    intro fuel hf
    cases fuel with
    | zero => simp at hf
    | succ f =>
      have hf' : l'.length ≤ f := by simpa using hf
      by_cases hp : s.pidOf c = pid
      · rw [List.find?_cons_of_pos _ (by simp [hp])]
        simp [hideLoop, if_neg hne, hp]
      · rw [List.find?_cons_of_neg _ (by simp [hp]), ← ih f hf']
        simp [hideLoop, if_neg hne, hp]

/-- C4: for a walk of the circular list from the current process (`l` is the
rest of the circle, `fuel` at least covers it), `HideProcess` returns either
the success or the unsuccessful status; it returns the unsuccessful status
exactly when offset resolution failed or no node of the circle (the current
process included — that one is checked before the general loop) carries the
target pid; and whenever it fails, the list state is returned unchanged — no
node is mutated. -/
theorem hideProcess_outcomes (build : Option Nat) (s : LState)
    (current pid fuel : Nat) (l : List Nat)
    (hw : Walk s current (s.flink current) l) (hf : l.length ≤ fuel) :
    ((HideProcess build s current pid fuel).1 = STATUS_SUCCESS ∨
      (HideProcess build s current pid fuel).1 = STATUS_UNSUCCESSFUL) ∧
    ((HideProcess build s current pid fuel).1 = STATUS_UNSUCCESSFUL ↔
      (GetActiveProcessLinksOffset build = STATUS_UNSUCCESSFUL ∨
        (s.pidOf current ≠ pid ∧ ∀ n ∈ l, s.pidOf n ≠ pid))) ∧
    ((HideProcess build s current pid fuel).1 = STATUS_UNSUCCESSFUL →
      (HideProcess build s current pid fuel).2 = s) := by
  unfold HideProcess
  by_cases ho : GetActiveProcessLinksOffset build = STATUS_UNSUCCESSFUL
  · simp [ho]
  · simp only [ho, if_false]
    by_cases hp : s.pidOf current = pid
    · simp [hp, ho, STATUS_SUCCESS, STATUS_UNSUCCESSFUL]
    · simp only [if_neg hp]
      rw [hideLoop_eq_find s current pid hw fuel hf]
      cases hfind : l.find? (fun n => s.pidOf n == pid) with
      | some node =>
        have hmem : node ∈ l ∧ s.pidOf node = pid := by
          have h1 := List.find?_some hfind
          have h2 := List.mem_of_find?_eq_some hfind
          exact ⟨h2, by simpa using h1⟩
        refine ⟨Or.inl rfl, ?_, ?_⟩
        · constructor
          · intro h
            simp [STATUS_SUCCESS, STATUS_UNSUCCESSFUL] at h
          · rintro (h | ⟨h1, h2⟩)
            · exact h.elim
            · exact absurd hmem.2 (h2 node hmem.1)
        · intro h
          simp [STATUS_SUCCESS, STATUS_UNSUCCESSFUL] at h
      | none =>
        have hall : ∀ n ∈ l, s.pidOf n ≠ pid := by
          intro n hn
          have hx := List.find?_eq_none.mp hfind n hn
          simpa using hx
        refine ⟨Or.inr rfl, ?_, fun _ => rfl⟩
        constructor
        · intro _
          exact Or.inr ⟨hp, hall⟩
        · intro _
          rfl

/-- C4 witness: on the concrete three-node ring, hiding pid 999 (present
nowhere) reports the unsuccessful status and leaves the list state untouched. -/
theorem hideProcess_outcomes_witness :
    (HideProcess (some 10240) ringState 1 999 2).1 = STATUS_UNSUCCESSFUL ∧
    (HideProcess (some 10240) ringState 1 999 2).2 = ringState := by
  have h := hideProcess_outcomes (some 10240) ringState 1 999 2 [2, 3]
    (Walk.cons (by decide) (Walk.cons (by decide) Walk.nil)) (by decide)
  have hs : (HideProcess (some 10240) ringState 1 999 2).1 = STATUS_UNSUCCESSFUL :=
    h.2.1.mpr (Or.inr ⟨by decide, by decide⟩)
  exact ⟨hs, h.2.2 hs⟩

/-- C7: whenever the process lookup succeeds, `SetProcessSignature` returns
success and writes, at the resolved signature-field offset, the record holding
the packed byte `(SignerType << 4) | SignatureSigner` (as a `UCHAR`) together
with the unpacked type/signer pair, leaving every other address unchanged; in
particular for signer type 1 and signature signer 2 the packed byte is 0x12
and the record reads back type 1 and signer 2. -/
theorem setProcessSignature_packed_spec (env : KernelEnv)
    (mem : Nat → PROCESS_SIGNATURE) (ps : ProcessSignature) (process : Nat)
    (hl : env.lookup ps.Pid = Except.ok process) :
    (SetProcessSignature env mem ps).1 = STATUS_SUCCESS ∧
    (SetProcessSignature env mem ps).2 (process + GetSignatureLevelOffset env.osBuild) =
      ⟨((ps.SignerType <<< 4) ||| ps.SignatureSigner) % 256,
        ps.SignerType, ps.SignatureSigner⟩ ∧
    (∀ x, x ≠ process + GetSignatureLevelOffset env.osBuild →
      (SetProcessSignature env mem ps).2 x = mem x) ∧
    (ps.SignerType = 1 → ps.SignatureSigner = 2 →
      ((SetProcessSignature env mem ps).2
          (process + GetSignatureLevelOffset env.osBuild)).SignatureLevel = 0x12 ∧
      ((SetProcessSignature env mem ps).2
          (process + GetSignatureLevelOffset env.osBuild)).ProtectionType = 1 ∧
      ((SetProcessSignature env mem ps).2
          (process + GetSignatureLevelOffset env.osBuild)).ProtectionSigner = 2) := by
  simp only [SetProcessSignature, hl]
  refine ⟨trivial, by simp, ?_, ?_⟩
  · intro x hx
    simp [hx]
  · intro h1 h2
    simp [h1, h2]

/-- C7 witness: on build 1903 with pid 7 resolving to address 7000, signer
type 1 and signature signer 2 yield packed byte 0x12 and protection record
(1, 2) at address 7000 + 0x6f8. -/
theorem setProcessSignature_packed_spec_witness :
    (SetProcessSignature env1903 zeroSigMem ⟨7, 1, 2⟩).1 = STATUS_SUCCESS ∧
    ((SetProcessSignature env1903 zeroSigMem ⟨7, 1, 2⟩).2 (7000 + 0x6f8)).SignatureLevel = 0x12 ∧
    ((SetProcessSignature env1903 zeroSigMem ⟨7, 1, 2⟩).2 (7000 + 0x6f8)).ProtectionType = 1 ∧
    ((SetProcessSignature env1903 zeroSigMem ⟨7, 1, 2⟩).2 (7000 + 0x6f8)).ProtectionSigner = 2 := by
  have h := setProcessSignature_packed_spec env1903 zeroSigMem ⟨7, 1, 2⟩ 7000 rfl
  exact ⟨h.1, h.2.2.2 rfl rfl⟩

/-- C8 counterexample: with a failed version query (so the signature-field
offset is the unsuccessful sentinel) but a successful process lookup,
`SetProcessSignature` does not return failure and does not skip the write: it
returns the success status and mutates the record at
`process + (ULONG)STATUS_UNSUCCESSFUL`, contradicting the claim that an
unresolved offset is a failure case with no write performed. -/
theorem setProcessSignature_offset_cex :
    (SetProcessSignature envNoVersion zeroSigMem ⟨7, 1, 2⟩).1 = STATUS_SUCCESS ∧
    (SetProcessSignature envNoVersion zeroSigMem ⟨7, 1, 2⟩).2
        (7000 + STATUS_UNSUCCESSFUL) ≠
      zeroSigMem (7000 + STATUS_UNSUCCESSFUL) := by
  constructor
  · rfl
  · decide

/-- C8 amended: `SetProcessSignature` returns failure exactly when the
process lookup fails, and then performs no write (the memory is returned
untouched); when the lookup succeeds it returns success and performs the
write at whatever offset `GetSignatureLevelOffset` returned — the offset is
never tested against the sentinel. -/
theorem setProcessSignature_amended (env : KernelEnv)
    (mem : Nat → PROCESS_SIGNATURE) (ps : ProcessSignature) :
    (∀ st, env.lookup ps.Pid = Except.error st →
      SetProcessSignature env mem ps = (st, mem)) ∧
    (∀ process, env.lookup ps.Pid = Except.ok process →
      (SetProcessSignature env mem ps).1 = STATUS_SUCCESS ∧
      (SetProcessSignature env mem ps).2 (process + GetSignatureLevelOffset env.osBuild) =
        ⟨((ps.SignerType <<< 4) ||| ps.SignatureSigner) % 256,
          ps.SignerType, ps.SignatureSigner⟩) := by
  constructor
  · intro st hst
    simp [SetProcessSignature, hst]
  · intro process hok
    simp [SetProcessSignature, hok]

/-- C8 amended witness: when the lookup of pid 9 fails with 0xC000000B,
`SetProcessSignature` returns that status and the memory unchanged. -/
theorem setProcessSignature_amended_witness :
    SetProcessSignature env1903SystemOnly zeroSigMem ⟨9, 1, 2⟩ =
      (0xC000000B, zeroSigMem) :=
  (setProcessSignature_amended env1903SystemOnly zeroSigMem ⟨9, 1, 2⟩).1
    0xC000000B rfl

/-- C9: on each exit path of `ElevateProcess` every reference obtained from
the lookup facility is dereferenced exactly once: when the target lookup
fails nothing was acquired and nothing is released, and the lookup's status
is returned; when the SYSTEM lookup fails only the target reference is
released and that status is returned; on success both are released (SYSTEM
first, then the target, matching the source order). -/
theorem elevateProcess_release_spec (env : KernelEnv) (mem : Nat → Nat) (pid : Nat) :
    (∀ st, env.lookup pid = Except.error st →
      (ElevateProcess env mem pid).status = st ∧
      (ElevateProcess env mem pid).released = []) ∧
    (∀ t st, env.lookup pid = Except.ok t →
      env.lookup SYSTEM_PROCESS_PID = Except.error st →
      (ElevateProcess env mem pid).status = st ∧
      (ElevateProcess env mem pid).released = [t]) ∧
    (∀ t p, env.lookup pid = Except.ok t →
      env.lookup SYSTEM_PROCESS_PID = Except.ok p →
      (ElevateProcess env mem pid).status = STATUS_SUCCESS ∧
      (ElevateProcess env mem pid).released = [p, t]) := by
  refine ⟨?_, ?_, ?_⟩
  · intro st hst
    simp [ElevateProcess, hst]
  · intro t st ht hst
    simp [ElevateProcess, ht, hst]
  · intro t p ht hp
    simp [ElevateProcess, ht, hp]

/-- C9 witness: with both lookups succeeding (pid 7 at 7000, SYSTEM at 4000),
`ElevateProcess` reports success and releases exactly the two references. -/
theorem elevateProcess_release_spec_witness :
    (ElevateProcess env1903 (fun _ => 0) 7).status = STATUS_SUCCESS ∧
    (ElevateProcess env1903 (fun _ => 0) 7).released = [4000, 7000] :=
  (elevateProcess_release_spec env1903 (fun _ => 0) 7).2.2 7000 4000 rfl rfl

/-- C10: `ElevateProcess` never tests the token-offset resolution: whenever
both lookups succeed it performs the pointer-sized copy from the privileged
block to the target block at whatever offset `GetTokenOffset` returned — for
a failed version query that offset is the 64-bit sentinel
`(UINT64)STATUS_UNSUCCESSFUL` — and reports success. -/
theorem elevateProcess_ignores_token_offset (env : KernelEnv) (mem : Nat → Nat)
    (pid t p : Nat) (ht : env.lookup pid = Except.ok t)
    (hp : env.lookup SYSTEM_PROCESS_PID = Except.ok p) :
    (ElevateProcess env mem pid).status = STATUS_SUCCESS ∧
    (ElevateProcess env mem pid).mem =
      fupd mem (t + GetTokenOffset env.osBuild) (mem (p + GetTokenOffset env.osBuild)) ∧
    (env.osBuild = none → GetTokenOffset env.osBuild = STATUS_UNSUCCESSFUL_U64) := by
  refine ⟨?_, ?_, ?_⟩
  · simp [ElevateProcess, ht, hp]
  · simp [ElevateProcess, ht, hp]
  · intro hn
    simp [GetTokenOffset, hn]

/-- C10 witness: with a failed version query and both lookups succeeding, the
copy lands at the sentinel offset (target 7000, source 4000, identity-valued
initial memory) and the status is success. -/
theorem elevateProcess_ignores_token_offset_witness :
    (ElevateProcess envNoVersion (fun x => x) 7).status = STATUS_SUCCESS ∧
    (ElevateProcess envNoVersion (fun x => x) 7).mem
        (7000 + STATUS_UNSUCCESSFUL_U64) =
      4000 + STATUS_UNSUCCESSFUL_U64 := by
  have h := elevateProcess_ignores_token_offset envNoVersion (fun x => x) 7 7000 4000 rfl rfl
  refine ⟨h.1, ?_⟩
  rw [h.2.1]
  have ho : GetTokenOffset envNoVersion.osBuild = STATUS_UNSUCCESSFUL_U64 := h.2.2 rfl
  rw [ho]
  simp [fupd]

end Nidhogg
